import Mathlib

/-
  Shallow embedding of eight0153/PyPong (src/pong.py, src/ai.py).

  Conventions used throughout:
  * Python floats are modelled as real numbers.
  * Every `GameObject` in the source keeps its geometry twice (in
    `self.bounding_box` and in the Tk canvas coordinates); the two are
    initialised to the same rectangle and are moved in lockstep by
    `GameObject.move`, so the embedding keeps a single copy.
  * The only randomness (`random.gauss(0, 1) < 0` in `Ball.__init__`,
    deciding each sign of the initial velocity) is passed in explicitly as
    two `Bool` parameters, threaded through every function that can create
    a ball (`reset`, `physics`, `update`, the constructor).
  * Tk calls that only draw (create_oval, itemconfig, score text, ...) have
    no simulation state and are omitted.
  * Python's dynamic attribute lookup on the AI objects is modelled by an
    explicit method table (`AIObj.lookupMethod`); calling a name that no
    class defines yields `PyErr.attributeError`, and reading a missing key
    of the `game_state` dict yields `PyErr.keyError`, as in CPython.
-/

open scoped Classical

noncomputable section

namespace PyPong

/-- Point (src/pong.py, class Point): a 2D point used both as a position
and as a velocity vector. -/
structure Point where
  x : ℝ
  y : ℝ

/-- Point.__add__ with a Point argument. -/
def Point.add (p q : Point) : Point := ⟨p.x + q.x, p.y + q.y⟩

/-- Point.__mul__ / __rmul__ with a scalar: `Point(self.x * other, self.y * other)`. -/
def Point.smul (c : ℝ) (p : Point) : Point := ⟨p.x * c, p.y * c⟩

/-- Point.__truediv__ with a scalar. -/
def Point.div (p : Point) (c : ℝ) : Point := ⟨p.x / c, p.y / c⟩

/-- Point.magnitude: `sqrt(self.x ** 2 + self.y ** 2)`. -/
def Point.magnitude (p : Point) : ℝ := Real.sqrt (p.x ^ 2 + p.y ^ 2)

/-- Point.unit_vector: `self / self.magnitude`. -/
def Point.unit_vector (p : Point) : Point := p.div p.magnitude

/-- BoundingBox (src/pong.py): origin is the top-left corner. -/
structure BoundingBox where
  origin : Point
  width : ℝ
  height : ℝ

def BoundingBox.left (b : BoundingBox) : ℝ := b.origin.x

def BoundingBox.right (b : BoundingBox) : ℝ := b.left + b.width

def BoundingBox.top (b : BoundingBox) : ℝ := b.origin.y

def BoundingBox.bottom (b : BoundingBox) : ℝ := b.top + b.height

/-- BoundingBox.centre. -/
def BoundingBox.centre (b : BoundingBox) : Point :=
  ⟨b.origin.x + b.width / 2, b.origin.y + b.height / 2⟩

/-- BoundingBox.intersects: overlap on both axes, all comparisons strict. -/
def BoundingBox.intersects (a b : BoundingBox) : Prop :=
  (a.right > b.left ∧ b.right > a.left) ∧ (a.bottom > b.top ∧ b.bottom > a.top)

/-- Translate a box: `GameObject.move` updates `bounding_box.origin += delta_pos`
(and moves the canvas object by the same delta). -/
def BoundingBox.translate (b : BoundingBox) (d : Point) : BoundingBox :=
  { b with origin := b.origin.add d }

/-- Ball (src/pong.py, class Ball, a GameObject): bounding box, velocity
and the `max_speed` attribute. -/
structure Ball where
  box : BoundingBox
  velocity : Point
  max_speed : ℝ

def Ball.left (b : Ball) : ℝ := b.box.left
def Ball.right (b : Ball) : ℝ := b.box.right
def Ball.top (b : Ball) : ℝ := b.box.top
def Ball.bottom (b : Ball) : ℝ := b.box.bottom
def Ball.centre (b : Ball) : Point := b.box.centre

/-- GameObject.move on a ball. -/
def Ball.move (b : Ball) (d : Point) : Ball := { b with box := b.box.translate d }

def Ball.BALL_SIZE : ℝ := 12
def Ball.DEFAULT_SPEED : ℝ := 3
def Ball.DEFAULT_MAX_SPEED : ℝ := 10

/-- Sign drawn in Ball.__init__: `-1 if random.gauss(0, 1) < 0 else 1`.
The Bool argument models the event `random.gauss(0, 1) < 0`. -/
def randSign (negative : Bool) : ℝ := if negative then -1 else 1

/-- Ball.__init__: box from the four coordinates, initial velocity
`speed * Point(x_dir, y_dir)`, and the `max_speed` attribute. -/
def Ball.create (x1 y1 x2 y2 : ℝ) (rx ry : Bool) (speed max_speed : ℝ) : Ball :=
  { box := ⟨⟨x1, y1⟩, x2 - x1, y2 - y1⟩,
    velocity := Point.smul speed ⟨randSign rx, randSign ry⟩,
    max_speed := max_speed }

/-- Ball.get_centred_ball: computes the centred coordinates and then calls
`Ball(canvas, x, y, x + BALL_SIZE, y + BALL_SIZE, speed=speed)`.  The call
does NOT forward its `max_speed` argument, so the `Ball.__init__` default
`DEFAULT_MAX_SPEED` is what the new ball gets; the factory's `max_speed`
parameter is accepted and dropped, exactly as in the source. -/
def Ball.get_centred_ball (W H : ℝ) (rx ry : Bool) (speed max_speed : ℝ) : Ball :=
  let x := W / 2 - Ball.BALL_SIZE / 2
  let y := H / 2 - Ball.BALL_SIZE / 2
  Ball.create x y (x + Ball.BALL_SIZE) (y + Ball.BALL_SIZE) rx ry speed Ball.DEFAULT_MAX_SPEED

/-- First step of Ball.update: `super().update()`, i.e. `move(self.velocity)`. -/
def Ball.integrate (b : Ball) : Ball := b.move b.velocity

/-- Second step of Ball.update: the wall check.
`if self.top <= 0 or self.bottom >= winfo_height(): velocity.y *= -1;
dy := -top if top <= 0 else height - bottom; move(Point(0, dy))`. -/
def Ball.wallBounce (b : Ball) (H : ℝ) : Ball :=
  if b.top ≤ 0 ∨ b.bottom ≥ H then
    let b1 : Ball := { b with velocity := ⟨b.velocity.x, -b.velocity.y⟩ }
    let dy := if b1.top ≤ 0 then -b1.top else H - b1.bottom
    b1.move ⟨0, dy⟩
  else b

/-- Last step of Ball.update: the speed clamp.
`if velocity.magnitude > max_speed: velocity = max_speed * velocity.unit_vector`. -/
def Ball.clampSpeed (b : Ball) : Ball :=
  if b.velocity.magnitude > b.max_speed then
    { b with velocity := Point.smul b.max_speed b.velocity.unit_vector }
  else b

/-- Ball.update(canvas height H): integrate, wall check, speed clamp, in
the source's order. -/
def Ball.update (b : Ball) (H : ℝ) : Ball := ((b.integrate).wallBounce H).clampSpeed

/-- GameObject.is_out_of_bounds, used on the ball in PongGame.physics. -/
def Ball.is_out_of_bounds (b : Ball) (W H : ℝ) : Prop :=
  b.left < 0 ∨ b.right > W ∨ b.top < 0 ∨ b.bottom > H

/-- Paddle (src/pong.py, class Paddle, a GameObject). -/
structure Paddle where
  box : BoundingBox
  velocity : Point
  speed : ℝ

def Paddle.left (p : Paddle) : ℝ := p.box.left
def Paddle.right (p : Paddle) : ℝ := p.box.right
def Paddle.top (p : Paddle) : ℝ := p.box.top
def Paddle.bottom (p : Paddle) : ℝ := p.box.bottom
def Paddle.centre (p : Paddle) : Point := p.box.centre
def Paddle.height (p : Paddle) : ℝ := p.box.height

def Paddle.move (p : Paddle) (d : Point) : Paddle := { p with box := p.box.translate d }

def Paddle.PADDLE_WIDTH : ℝ := 10
def Paddle.PADDLE_HEIGHT : ℝ := 40
def Paddle.DEFAULT_SPEED : ℝ := 8

/-- Paddle.make_paddle: player 1 sits at x = x_offset (25), player 2 at
`width - x_offset - PADDLE_WIDTH`; both vertically centred. -/
def Paddle.make_paddle (W H : ℝ) (player : ℕ) (speed : ℝ) : Paddle :=
  let x := if player = 1 then 25 else W - 25 - Paddle.PADDLE_WIDTH
  let y := (H - Paddle.PADDLE_HEIGHT) / 2
  { box := ⟨⟨x, y⟩, Paddle.PADDLE_WIDTH, Paddle.PADDLE_HEIGHT⟩,
    velocity := ⟨0, 0⟩,
    speed := speed }

/-- Paddle.update: move by velocity, then push back on screen
(`if y1 < 0: dy = -y1 elif y2 > height: dy = height - y2 else dy = 0`). -/
def Paddle.update (p : Paddle) (H : ℝ) : Paddle :=
  let p1 := p.move p.velocity
  let dy := if p1.top < 0 then -p1.top else if p1.bottom > H then H - p1.bottom else 0
  p1.move ⟨0, dy⟩

/-- GameObject.intersects between the ball and a paddle, via bounding boxes. -/
def Ball.intersectsPad (b : Ball) (p : Paddle) : Prop := b.box.intersects p.box

/-
  src/ai.py
-/

/-- AIAgent.Difficulty (src/ai.py): the four difficulty constants. -/
inductive Difficulty
  | EASY
  | MEDIUM
  | HARD
  | IMPOSSIBLE

/-- The three bound paddle methods an agent can return, plus `AIAgent.noop`
(the do-nothing callable returned by the base class). -/
inductive PaddleAction
  | noop
  | move_up
  | move_down
  | stop

/-- Calling the returned action on its paddle: `Paddle.move_up` sets
velocity `(0, -speed)`, `move_down` sets `(0, speed)`, `stop` sets `(0, 0)`,
and `AIAgent.noop` does nothing. -/
def Paddle.applyAction (p : Paddle) : PaddleAction → Paddle
  | .noop => p
  | .move_up => { p with velocity := ⟨0, -p.speed⟩ }
  | .move_down => { p with velocity := ⟨0, p.speed⟩ }
  | .stop => { p with velocity := ⟨0, 0⟩ }

/-- Method names that PongGame.update tries to call on an agent. -/
inductive MethodName
  | get_action
  | get_move

/-- Keys of the `game_state` dict read by `RuleBased.get_action`. -/
inductive SnapshotKey
  | canvas
  | paddle
  | ball

/-- Runtime errors of the dynamic parts of the source: looking up a method
the class hierarchy does not define, or a dict key that was not passed. -/
inductive PyErr
  | attributeError (name : MethodName)
  | keyError (key : SnapshotKey)

/-- The canvas as the AI reads it: `winfo_width` and `winfo_height`. -/
structure CanvasInfo where
  width : ℝ
  height : ℝ

/-- The `game_state` dict handed to an agent.  `PongGame.update` builds it
with only the keys `ball` and `paddle`; a missing key is `none`. -/
structure Snapshot where
  canvas : Option CanvasInfo
  paddle : Option Paddle
  ball : Option Ball

/-- Dict access `game_state['canvas']`: KeyError when absent. -/
def Snapshot.getCanvas (s : Snapshot) : Except PyErr CanvasInfo :=
  match s.canvas with
  | some c => .ok c
  | none => .error (.keyError .canvas)

/-- Dict access `game_state['paddle']`. -/
def Snapshot.getPaddle (s : Snapshot) : Except PyErr Paddle :=
  match s.paddle with
  | some p => .ok p
  | none => .error (.keyError .paddle)

/-- Dict access `game_state['ball']`. -/
def Snapshot.getBall (s : Snapshot) : Except PyErr Ball :=
  match s.ball with
  | some b => .ok b
  | none => .error (.keyError .ball)

/-- RuleBased.__init__: the dead zone size derived from the difficulty as a
fraction of `canvas.winfo_width()`. -/
def RuleBased.dead_zone_size (W : ℝ) : Difficulty → ℝ
  | .EASY => W * 0.8
  | .MEDIUM => W * 0.5
  | .HARD => W * 0.2
  | .IMPOSSIBLE => 0

/-- RuleBased.is_ball_approaching: the ball moves towards the half of the
screen the paddle's centre is in. -/
def RuleBased.is_ball_approaching (c : CanvasInfo) (ball : Ball) (paddle : Paddle) : Prop :=
  (paddle.centre.x > c.width / 2 ∧ ball.velocity.x > 0) ∨
  (paddle.centre.x < c.width / 2 ∧ ball.velocity.x < 0)

/-- RuleBased.get_action: reads `canvas`, `paddle`, `ball` from the dict (in
the source's order), picks the tracking target, and returns `move_up`,
`move_down` or `stop` by the sign of `dy`. -/
def RuleBased.get_action (dead_zone : ℝ) (game_state : Snapshot) : Except PyErr PaddleAction := do
  let canvas ← game_state.getCanvas
  let paddle ← game_state.getPaddle
  let ball ← game_state.getBall
  let dy :=
    if |ball.centre.x - paddle.centre.x| > dead_zone ∨
        ¬ RuleBased.is_ball_approaching canvas ball paddle then
      let centre_y := canvas.height / 2 - paddle.height / 2
      if paddle.top < centre_y ∧ centre_y < paddle.bottom then 0
      else centre_y - paddle.centre.y
    else
      if paddle.top < ball.centre.y ∧ ball.centre.y < paddle.bottom then 0
      else ball.centre.y - paddle.centre.y
  if dy < 0 then pure .move_up
  else if dy > 0 then pure .move_down
  else pure .stop

/-- AIAgent.get_action of the base class: returns `self.noop` regardless of
the game state. -/
def AIAgent.get_action (_ : Snapshot) : Except PyErr PaddleAction := .ok .noop

/-- The two classes an `ai_players` entry can be an instance of: the base
`AIAgent` (made for any ai_type other than RULE_BASED, including None) or a
`RuleBased` agent carrying the dead zone computed at construction. -/
inductive AIObj
  | agent (difficulty : Difficulty)
  | ruleBased (dead_zone : ℝ) (difficulty : Difficulty)

/-- Python attribute lookup on an agent, restricted to the method names the
game ever calls.  Both classes define `get_action`; NEITHER defines
`get_move`. -/
def AIObj.lookupMethod : AIObj → MethodName → Option (Snapshot → Except PyErr PaddleAction)
  | .agent _, .get_action => some AIAgent.get_action
  | .ruleBased dz _, .get_action => some (RuleBased.get_action dz)
  | .agent _, .get_move => none
  | .ruleBased _ _, .get_move => none

/-- Calling `obj.<name>(game_state)`: AttributeError when the lookup fails. -/
def AIObj.callMethod (a : AIObj) (name : MethodName) (game_state : Snapshot) :
    Except PyErr PaddleAction :=
  match a.lookupMethod name with
  | some f => f game_state
  | none => .error (.attributeError name)

/-- AIType constants (src/ai.py): NONE is Python None, RULE_BASED is 0. -/
def AIType.NONE : Option ℤ := none

def AIType.RULE_BASED : Option ℤ := some 0

/-- AIFactory.make_ai: a RuleBased agent when `ai_type == AIType.RULE_BASED`,
otherwise (including ai_type None) an instance of the base AIAgent class —
never Python None. -/
def AIFactory.make_ai (W : ℝ) (ai_type : Option ℤ) (difficulty : Difficulty) : AIObj :=
  if ai_type = AIType.RULE_BASED then
    .ruleBased (RuleBased.dead_zone_size W difficulty) difficulty
  else
    .agent difficulty

/-
  class PongGame (src/pong.py)
-/

/-- The simulation-relevant state of a PongGame instance.  The canvas
dimensions are `winfo_width` / `winfo_height` of the fixed-size window;
`ai1` / `ai2` are the `ai_players` list (`Option` because the source
initialises the entries to None before assigning the factory results). -/
structure PongState where
  screen_width : ℝ
  screen_height : ℝ
  spin : ℝ
  hit_speedup : ℝ
  ball_max_speed : ℝ
  ball : Ball
  pad1 : Paddle
  pad2 : Paddle
  p1_score : ℕ
  p2_score : ℕ
  paused : Bool
  ai1 : Option AIObj
  ai2 : Option AIObj

/-- PongGame.pause: sets the paused flag (the pause text is drawing only). -/
def PongGame.pause (g : PongState) : PongState := { g with paused := true }

/-- PongGame.reset: a fresh centred ball (passing `max_speed=self.ball_max_speed`
to the factory, which drops it), both paddles re-made in their start
positions, then `self.pause()`.  `rx ry` are the random sign draws of the
new ball. -/
def PongGame.reset (g : PongState) (rx ry : Bool) : PongState :=
  PongGame.pause
    { g with
      ball := Ball.get_centred_ball g.screen_width g.screen_height rx ry
        Ball.DEFAULT_SPEED g.ball_max_speed,
      pad1 := Paddle.make_paddle g.screen_width g.screen_height 1 Paddle.DEFAULT_SPEED,
      pad2 := Paddle.make_paddle g.screen_width g.screen_height 2 Paddle.DEFAULT_SPEED }

/-- PongGame.__init__: window dimensions are clamped with
`max(600, window_width)` / `max(300, window_height)` — no validation error
is raised anywhere in the constructor; the AI entries are set with the
factory (never None); scores start at 0; `self.paused = False` and then
`self.reset()` pauses the game.  The ball and paddles are None until
`reset()` builds them, so the placeholder fields below are immediately
overwritten by `PongGame.reset`. -/
def PongGame.init (spin hit_speedup ball_max_speed window_width window_height : ℝ)
    (p1_ai_type p2_ai_type : Option ℤ) (difficulty : Difficulty)
    (rx ry : Bool) : PongState :=
  let W := max 600 window_width
  let H := max 300 window_height
  PongGame.reset
    { screen_width := W,
      screen_height := H,
      spin := spin,
      hit_speedup := hit_speedup,
      ball_max_speed := ball_max_speed,
      ball := { box := ⟨⟨0, 0⟩, 0, 0⟩, velocity := ⟨0, 0⟩, max_speed := 0 },
      pad1 := { box := ⟨⟨0, 0⟩, 0, 0⟩, velocity := ⟨0, 0⟩, speed := 0 },
      pad2 := { box := ⟨⟨0, 0⟩, 0, 0⟩, velocity := ⟨0, 0⟩, speed := 0 },
      p1_score := 0,
      p2_score := 0,
      paused := false,
      ai1 := some (AIFactory.make_ai W p1_ai_type difficulty),
      ai2 := some (AIFactory.make_ai W p2_ai_type difficulty) } rx ry

/-- The ball-vs-paddle part of PongGame.physics: test the left paddle
first; only if it does not intersect, test the right paddle (`elif`).  A
hit multiplies `velocity.x` by `-1 * hit_speedup`, adds
`spin * paddle.velocity.y` to `velocity.y`, and moves the ball flush
against the paddle (`dx = pad1.right - ball.left`, resp.
`dx = pad2.left - ball.right`). -/
def PongGame.collide (g : PongState) : PongState :=
  if g.ball.intersectsPad g.pad1 then
    let v : Point := ⟨g.ball.velocity.x * (-1 * g.hit_speedup),
                      g.ball.velocity.y + g.spin * g.pad1.velocity.y⟩
    let dx := g.pad1.right - g.ball.left
    { g with ball := ({ g.ball with velocity := v }).move ⟨dx, 0⟩ }
  else if g.ball.intersectsPad g.pad2 then
    let v : Point := ⟨g.ball.velocity.x * (-1 * g.hit_speedup),
                      g.ball.velocity.y + g.spin * g.pad2.velocity.y⟩
    let dx := g.pad2.left - g.ball.right
    { g with ball := ({ g.ball with velocity := v }).move ⟨dx, 0⟩ }
  else g

/-- The scoring part of PongGame.physics: guarded by
`ball.is_out_of_bounds()`, then `left < 0` scores for player two and
`right > width` for player one, each followed by `reset()`. -/
def PongGame.score_check (g : PongState) (rx ry : Bool) : PongState :=
  if g.ball.is_out_of_bounds g.screen_width g.screen_height then
    if g.ball.left < 0 then
      PongGame.reset { g with p2_score := g.p2_score + 1 } rx ry
    else if g.ball.right > g.screen_width then
      PongGame.reset { g with p1_score := g.p1_score + 1 } rx ry
    else g
  else g

/-- PongGame.physics: collision resolution, then the scoring check, in the
source's statement order. -/
def PongGame.physics (g : PongState) (rx ry : Bool) : PongState :=
  PongGame.score_check (PongGame.collide g) rx ry

/-- One side of the AI step of PongGame.update:
`if self.ai_players[i] is not None: move = self.ai_players[i].get_move({'ball': ..., 'paddle': ...}); move()`.
The dict passed has no `canvas` key. -/
def PongGame.aiStepSide (ball : Ball) (a : Option AIObj) (pad : Paddle) :
    Except PyErr Paddle :=
  match a with
  | none => .ok pad
  | some ai => do
      let mv ← ai.callMethod .get_move { canvas := none, paddle := some pad, ball := some ball }
      .ok (pad.applyAction mv)

/-- The part of PongGame.update after the AI step: both paddles update,
then the ball updates (running its speed clamp), then `self.physics()`.
The trailing score display `itemconfig` calls are drawing only. -/
def PongGame.tickRest (g : PongState) (rx ry : Bool) : PongState :=
  let g1 := { g with pad1 := g.pad1.update g.screen_height,
                     pad2 := g.pad2.update g.screen_height }
  let g2 := { g1 with ball := g1.ball.update g1.screen_height }
  PongGame.physics g2 rx ry

/-- PongGame.update: evaluate the AI of each side (calling `get_move` on the
agent objects), then the movement/physics pipeline. -/
def PongGame.update (g : PongState) (rx ry : Bool) : Except PyErr PongState := do
  let pad1 ← PongGame.aiStepSide g.ball g.ai1 g.pad1
  let g1 := { g with pad1 := pad1 }
  let pad2 ← PongGame.aiStepSide g1.ball g1.ai2 g1.pad2
  let g2 := { g1 with pad2 := pad2 }
  .ok (PongGame.tickRest g2 rx ry)

/-
  Helper lemmas about `Point.magnitude`, shared by several developments
  below.
-/

theorem Point.magnitude_nonneg (p : Point) : 0 ≤ p.magnitude :=
  Real.sqrt_nonneg _

/-- The magnitude of a concrete point, certified by its squared value. -/
theorem Point.magnitude_eq {p : Point} {c : ℝ} (hc : 0 ≤ c)
    (h : p.x ^ 2 + p.y ^ 2 = c ^ 2) : p.magnitude = c := by
  rw [Point.magnitude, h, Real.sqrt_sq hc]

theorem Point.magnitude_le {p : Point} {c : ℝ} (hc : 0 ≤ c)
    (h : p.x ^ 2 + p.y ^ 2 ≤ c ^ 2) : p.magnitude ≤ c := by
  calc Real.sqrt (p.x ^ 2 + p.y ^ 2) ≤ Real.sqrt (c ^ 2) := Real.sqrt_le_sqrt h
    _ = c := Real.sqrt_sq hc

/-- Negating the y component (the wall reflection) keeps the magnitude. -/
theorem Point.magnitude_negY (p : Point) :
    (Point.mk p.x (-p.y)).magnitude = p.magnitude := by
  simp [Point.magnitude]

theorem Point.magnitude_smul (c : ℝ) (p : Point) :
    (Point.smul c p).magnitude = |c| * p.magnitude := by
  unfold Point.magnitude Point.smul
  have h : (p.x * c) ^ 2 + (p.y * c) ^ 2 = c ^ 2 * (p.x ^ 2 + p.y ^ 2) := by ring
  rw [h, Real.sqrt_mul (sq_nonneg c), Real.sqrt_sq_eq_abs]

/-- `x² + y² = magnitude²`. -/
theorem Point.sq_add_sq (p : Point) : p.x ^ 2 + p.y ^ 2 = p.magnitude ^ 2 := by
  rw [Point.magnitude, Real.sq_sqrt (by positivity)]

theorem Point.magnitude_unit_vector {p : Point} (h : p.magnitude ≠ 0) :
    p.unit_vector.magnitude = 1 := by
  have hsq : p.x ^ 2 + p.y ^ 2 = p.magnitude ^ 2 := p.sq_add_sq
  apply Point.magnitude_eq (by norm_num)
  unfold Point.unit_vector Point.div
  field_simp
  linarith [hsq]

/-- The clamp step either leaves a slow velocity alone or rescales to
magnitude exactly `max_speed`; in both cases, for a positive `max_speed`
the resulting magnitude is at most `max_speed`. -/
theorem Ball.clampSpeed_magnitude_le (b : Ball) (h : 0 < b.max_speed) :
    (b.clampSpeed).velocity.magnitude ≤ b.max_speed := by
  unfold Ball.clampSpeed
  split_ifs with hgt
  · have hm : b.velocity.magnitude ≠ 0 := by
      have : 0 < b.velocity.magnitude := lt_trans h hgt
      linarith
    simp only
    rw [Point.magnitude_smul, Point.magnitude_unit_vector hm,
      abs_of_pos h, mul_one]
  · exact le_of_not_lt hgt

/-- When the clamp fires, the result has magnitude exactly `max_speed`. -/
theorem Ball.clampSpeed_magnitude_eq (b : Ball) (h : 0 < b.max_speed)
    (hgt : b.velocity.magnitude > b.max_speed) :
    (b.clampSpeed).velocity = Point.smul b.max_speed b.velocity.unit_vector ∧
    (b.clampSpeed).velocity.magnitude = b.max_speed := by
  have hm : b.velocity.magnitude ≠ 0 := by
    have : 0 < b.velocity.magnitude := lt_trans h hgt
    linarith
  unfold Ball.clampSpeed
  rw [if_pos hgt]
  refine ⟨rfl, ?_⟩
  simp only
  rw [Point.magnitude_smul, Point.magnitude_unit_vector hm, abs_of_pos h, mul_one]

/-- When the velocity is already within the limit the clamp is the identity. -/
theorem Ball.clampSpeed_of_le (b : Ball) (h : b.velocity.magnitude ≤ b.max_speed) :
    b.clampSpeed = b := by
  unfold Ball.clampSpeed
  rw [if_neg (not_lt.mpr h)]

theorem Ball.clampSpeed_max_speed (b : Ball) : (b.clampSpeed).max_speed = b.max_speed := by
  unfold Ball.clampSpeed
  split_ifs <;> rfl

theorem Ball.wallBounce_max_speed (b : Ball) (H : ℝ) :
    (b.wallBounce H).max_speed = b.max_speed := by
  unfold Ball.wallBounce
  split_ifs <;> rfl

theorem Ball.integrate_velocity (b : Ball) : (b.integrate).velocity = b.velocity := rfl

theorem Ball.integrate_max_speed (b : Ball) : (b.integrate).max_speed = b.max_speed := rfl

/-- The wall step keeps the magnitude of the velocity (it either does
nothing or negates the y component). -/
theorem Ball.wallBounce_magnitude (b : Ball) (H : ℝ) :
    (b.wallBounce H).velocity.magnitude = b.velocity.magnitude := by
  unfold Ball.wallBounce
  split_ifs with hcond
  · simp only [Ball.move]
    exact Point.magnitude_negY b.velocity
  · rfl

/-
  Claim theorems.
-/

/-- C2: for every ball with positive `max_speed` and every pre-update
velocity, immediately after `Ball.update` the magnitude of the velocity is
at most `max_speed`, and whenever the post-integration (pre-clamp)
magnitude exceeded `max_speed` the velocity was rescaled to exactly
`max_speed` along its own direction (`max_speed * unit_vector`). -/
theorem ball_update_speed_clamped (b : Ball) (H : ℝ) (h : 0 < b.max_speed) :
    (b.update H).velocity.magnitude ≤ b.max_speed ∧
    ((b.integrate.wallBounce H).velocity.magnitude > b.max_speed →
      (b.update H).velocity =
        Point.smul b.max_speed (b.integrate.wallBounce H).velocity.unit_vector ∧
      (b.update H).velocity.magnitude = b.max_speed) := by
  have hms : (b.integrate.wallBounce H).max_speed = b.max_speed := by
    rw [Ball.wallBounce_max_speed, Ball.integrate_max_speed]
  have hpos : 0 < (b.integrate.wallBounce H).max_speed := by rw [hms]; exact h
  constructor
  · have hle := Ball.clampSpeed_magnitude_le (b.integrate.wallBounce H) hpos
    rw [hms] at hle
    exact hle
  · intro hgt
    have hgt' : (b.integrate.wallBounce H).velocity.magnitude >
        (b.integrate.wallBounce H).max_speed := by rw [hms]; exact hgt
    have heq := Ball.clampSpeed_magnitude_eq (b.integrate.wallBounce H) hpos hgt'
    rw [hms] at heq
    exact heq

/-- Witness for `ball_update_speed_clamped` at a concrete ball: velocity
(3, 4) with `max_speed = 2`. -/
theorem ball_update_speed_clamped_witness :
    (0 : ℝ) < 2 ∧
    ((Ball.mk ⟨⟨0, 50⟩, 12, 12⟩ ⟨3, 4⟩ 2).update 400).velocity.magnitude ≤ 2 :=
  ⟨by norm_num,
    (ball_update_speed_clamped (Ball.mk ⟨⟨0, 50⟩, 12, 12⟩ ⟨3, 4⟩ 2) 400 (by norm_num)).1⟩

/-- C4: `BoundingBox.intersects` holds iff the rectangles overlap strictly
on both axes; in particular boxes sharing only a boundary edge
(`a.right = b.left`) do not intersect. -/
theorem intersects_iff_strict_overlap (a b : BoundingBox) :
    (a.intersects b ↔
      (a.right > b.left ∧ b.right > a.left ∧ a.bottom > b.top ∧ b.bottom > a.top)) ∧
    (a.right = b.left → ¬ a.intersects b) := by
  constructor
  · unfold BoundingBox.intersects
    tauto
  · intro he hi
    rcases hi with ⟨⟨h1, _⟩, _⟩
    rw [he] at h1
    exact lt_irrefl _ h1

/-- Witness for `intersects_iff_strict_overlap`: two 10×10 boxes touching
along the vertical edge x = 10 do not intersect. -/
theorem intersects_iff_strict_overlap_witness :
    (BoundingBox.mk ⟨0, 0⟩ 10 10).right = (BoundingBox.mk ⟨10, 0⟩ 10 10).left ∧
    ¬ (BoundingBox.mk ⟨0, 0⟩ 10 10).intersects (BoundingBox.mk ⟨10, 0⟩ 10 10) := by
  have h : (BoundingBox.mk ⟨0, 0⟩ 10 10).right = (BoundingBox.mk ⟨10, 0⟩ 10 10).left := by
    simp [BoundingBox.right, BoundingBox.left]
  exact ⟨h, (intersects_iff_strict_overlap _ _).2 h⟩

/-- Field-level description of the wall step when the integrated ball is at
or beyond the top of the screen (`top ≤ 0`). -/
theorem Ball.wallBounce_top_case (b : Ball) (H : ℝ) (h : b.top ≤ 0) :
    (b.wallBounce H).velocity = Point.mk b.velocity.x (-b.velocity.y) ∧
    (b.wallBounce H).top = 0 ∧
    (b.wallBounce H).left = b.left ∧
    (b.wallBounce H).max_speed = b.max_speed := by
  unfold Ball.wallBounce
  rw [if_pos (Or.inl h)]
  simp only
  split_ifs with h2
  · refine ⟨rfl, ?_, ?_, rfl⟩
    · simp [Ball.move, BoundingBox.translate, Point.add, Ball.top, BoundingBox.top]
    · simp [Ball.move, BoundingBox.translate, Point.add, Ball.left, BoundingBox.left]
  · exact absurd h h2

/-- Field-level description of the wall step when the integrated ball is at
or below the bottom of the screen but not at the top. -/
theorem Ball.wallBounce_bottom_case (b : Ball) (H : ℝ) (hnt : ¬ b.top ≤ 0)
    (h : b.bottom ≥ H) :
    (b.wallBounce H).velocity = Point.mk b.velocity.x (-b.velocity.y) ∧
    (b.wallBounce H).bottom = H ∧
    (b.wallBounce H).left = b.left ∧
    (b.wallBounce H).max_speed = b.max_speed := by
  unfold Ball.wallBounce
  rw [if_pos (Or.inr h)]
  simp only
  split_ifs with h2
  · exact absurd h2 hnt
  · refine ⟨rfl, ?_, ?_, rfl⟩
    · simp [Ball.move, BoundingBox.translate, Point.add, Ball.bottom, BoundingBox.bottom,
        BoundingBox.top]
      ring
    · simp [Ball.move, BoundingBox.translate, Point.add, Ball.left, BoundingBox.left]

/-- The wall step does nothing when the integrated ball is strictly inside
both horizontal walls. -/
theorem Ball.wallBounce_id (b : Ball) (H : ℝ)
    (h : ¬ (b.top ≤ 0 ∨ b.bottom ≥ H)) : b.wallBounce H = b := by
  unfold Ball.wallBounce
  rw [if_neg h]

/-- C3 (amended): `Ball.update` advances the position by the velocity; the
reflection-and-clamp branch fires exactly when the integrated position has
`top ≤ 0` or `bottom ≥ screen_height` (NON-strict, unlike the claim's
strict `<`/`>`): then `velocity.y` is negated and the ball is placed
exactly at the boundary it crossed; otherwise velocity and position are
exactly the integrated ones.  The pre-update speed is assumed within
`max_speed` so that the final speed clamp (whose test the reflection does
not affect) is inert. -/
theorem ball_update_wall_reflection (b : Ball) (H : ℝ)
    (hmag : b.velocity.magnitude ≤ b.max_speed) :
    ((b.integrate.top ≤ 0 ∨ b.integrate.bottom ≥ H) →
      (b.update H).velocity = Point.mk b.velocity.x (-b.velocity.y) ∧
      (b.integrate.top ≤ 0 → (b.update H).top = 0) ∧
      (¬ b.integrate.top ≤ 0 → (b.update H).bottom = H) ∧
      (b.update H).left = b.integrate.left) ∧
    (¬ (b.integrate.top ≤ 0 ∨ b.integrate.bottom ≥ H) →
      b.update H = b.integrate) := by
  have hclamp : ∀ c : Ball, c = b.integrate.wallBounce H → c.clampSpeed = c := by
    intro c hc
    apply Ball.clampSpeed_of_le
    rw [hc, Ball.wallBounce_magnitude, Ball.integrate_velocity,
      Ball.wallBounce_max_speed, Ball.integrate_max_speed]
    exact hmag
  have hupd : b.update H = b.integrate.wallBounce H := hclamp _ rfl
  constructor
  · intro hcond
    by_cases htop : b.integrate.top ≤ 0
    · obtain ⟨hv, ht, hl, _⟩ := Ball.wallBounce_top_case b.integrate H htop
      rw [Ball.integrate_velocity] at hv
      exact ⟨hupd ▸ hv, fun _ => hupd ▸ ht, fun hq => absurd htop hq, hupd ▸ hl⟩
    · have hbot : b.integrate.bottom ≥ H := hcond.resolve_left htop
      obtain ⟨hv, hb, hl, _⟩ := Ball.wallBounce_bottom_case b.integrate H htop hbot
      rw [Ball.integrate_velocity] at hv
      exact ⟨hupd ▸ hv, fun hq => absurd hq htop, fun _ => hupd ▸ hb, hupd ▸ hl⟩
  · intro hcond
    rw [hupd, Ball.wallBounce_id b.integrate H hcond]

/-- Witness for `ball_update_wall_reflection`: the claim's own example — a
ball at `position.y = -1` moving up with `velocity.y = -2` ends the update
at `top = 0` with `velocity.y = +2`. -/
theorem ball_update_wall_reflection_witness :
    (Ball.mk ⟨⟨100, -1⟩, 12, 12⟩ ⟨0, -2⟩ 10).velocity.magnitude ≤ 10 ∧
    ((Ball.mk ⟨⟨100, -1⟩, 12, 12⟩ ⟨0, -2⟩ 10).update 400).velocity =
      Point.mk 0 2 ∧
    ((Ball.mk ⟨⟨100, -1⟩, 12, 12⟩ ⟨0, -2⟩ 10).update 400).top = 0 := by
  have hmag : (Ball.mk ⟨⟨100, -1⟩, 12, 12⟩ ⟨0, -2⟩ 10).velocity.magnitude ≤ 10 :=
    Point.magnitude_le (by norm_num) (by norm_num)
  have htop : (Ball.mk ⟨⟨100, -1⟩, 12, 12⟩ ⟨0, -2⟩ 10).integrate.top ≤ 0 := by
    show (-1 : ℝ) + -2 ≤ 0
    norm_num
  obtain ⟨h1, h2⟩ := ball_update_wall_reflection
    (Ball.mk ⟨⟨100, -1⟩, 12, 12⟩ ⟨0, -2⟩ 10) 400 hmag
  obtain ⟨hv, ht, _, _⟩ := h1 (Or.inl htop)
  refine ⟨hmag, ?_, ht htop⟩
  rw [hv]
  show Point.mk (0 : ℝ) (-(-2 : ℝ)) = Point.mk 0 2
  congr 1
  norm_num

/-- C3 counterexample: a ball whose integrated position has `top` exactly 0
— the claim's strict condition `top < 0 ∨ bottom > H` is false, so the
claim says the velocity stays `(0, -3)`, but the code's non-strict test
fires and flips `velocity.y` to `+3`. -/
theorem ball_update_wall_reflection_counterexample :
    ¬ ((Ball.mk ⟨⟨100, 3⟩, 12, 12⟩ ⟨0, -3⟩ 10).integrate.top < 0 ∨
       (Ball.mk ⟨⟨100, 3⟩, 12, 12⟩ ⟨0, -3⟩ 10).integrate.bottom > 400) ∧
    (Ball.mk ⟨⟨100, 3⟩, 12, 12⟩ ⟨0, -3⟩ 10).velocity.y = -3 ∧
    ((Ball.mk ⟨⟨100, 3⟩, 12, 12⟩ ⟨0, -3⟩ 10).update 400).velocity.y = 3 := by
  refine ⟨?_, rfl, ?_⟩
  · refine not_or.mpr ⟨?_, ?_⟩
    · show ¬ ((3 : ℝ) + -3 < 0)
      norm_num
    · show ¬ ((3 : ℝ) + -3 + 12 > 400)
      norm_num
  · have htop : (Ball.mk ⟨⟨100, 3⟩, 12, 12⟩ ⟨0, -3⟩ 10).integrate.top ≤ 0 := by
      show (3 : ℝ) + -3 ≤ 0
      norm_num
    obtain ⟨hv, _, _, _⟩ :=
      Ball.wallBounce_top_case (Ball.mk ⟨⟨100, 3⟩, 12, 12⟩ ⟨0, -3⟩ 10).integrate 400 htop
    have hclamp :
        ((Ball.mk ⟨⟨100, 3⟩, 12, 12⟩ ⟨0, -3⟩ 10).integrate.wallBounce 400).clampSpeed =
        (Ball.mk ⟨⟨100, 3⟩, 12, 12⟩ ⟨0, -3⟩ 10).integrate.wallBounce 400 := by
      apply Ball.clampSpeed_of_le
      rw [Ball.wallBounce_magnitude, Ball.integrate_velocity, Ball.wallBounce_max_speed,
        Ball.integrate_max_speed]
      exact Point.magnitude_le (by norm_num) (by norm_num)
    show (((Ball.mk ⟨⟨100, 3⟩, 12, 12⟩ ⟨0, -3⟩ 10).integrate.wallBounce
      400).clampSpeed).velocity.y = 3
    rw [hclamp, hv]
    show -(-3 : ℝ) = 3
    norm_num

/-- C5: the collision part of `PongGame.physics` tests the left paddle
first; on a hit, `velocity.x` is negated and multiplied by the hit-speedup
factor, `spin * pad1.velocity.y` is added to `velocity.y`, and the ball is
placed flush against the left paddle's right edge, everything else
unchanged.  The right paddle is handled (symmetrically, flush against its
left edge) only when the left paddle did NOT intersect, so even a ball
overlapping both paddles gets exactly one collision resolved. -/
theorem collide_left_paddle_first (g : PongState) :
    (g.ball.intersectsPad g.pad1 →
      (PongGame.collide g).ball.velocity.x = -(g.hit_speedup * g.ball.velocity.x) ∧
      (PongGame.collide g).ball.velocity.y = g.ball.velocity.y + g.spin * g.pad1.velocity.y ∧
      (PongGame.collide g).ball.left = g.pad1.right ∧
      (PongGame.collide g).ball.top = g.ball.top ∧
      (PongGame.collide g).pad1 = g.pad1 ∧
      (PongGame.collide g).pad2 = g.pad2) ∧
    (¬ g.ball.intersectsPad g.pad1 → g.ball.intersectsPad g.pad2 →
      (PongGame.collide g).ball.velocity.x = -(g.hit_speedup * g.ball.velocity.x) ∧
      (PongGame.collide g).ball.velocity.y = g.ball.velocity.y + g.spin * g.pad2.velocity.y ∧
      (PongGame.collide g).ball.right = g.pad2.left ∧
      (PongGame.collide g).ball.top = g.ball.top ∧
      (PongGame.collide g).pad1 = g.pad1 ∧
      (PongGame.collide g).pad2 = g.pad2) ∧
    (¬ g.ball.intersectsPad g.pad1 → ¬ g.ball.intersectsPad g.pad2 →
      PongGame.collide g = g) := by
  refine ⟨?_, ?_, ?_⟩
  · intro h1
    unfold PongGame.collide
    rw [if_pos h1]
    refine ⟨?_, ?_, ?_, ?_, rfl, rfl⟩
    · show g.ball.velocity.x * (-1 * g.hit_speedup) = -(g.hit_speedup * g.ball.velocity.x)
      ring
    · rfl
    · show g.ball.box.origin.x + (g.pad1.right - g.ball.left) = g.pad1.right
      show g.ball.box.origin.x + (g.pad1.right - g.ball.box.origin.x) = g.pad1.right
      ring
    · show g.ball.box.origin.y + 0 = g.ball.box.origin.y
      ring
  · intro h1 h2
    unfold PongGame.collide
    rw [if_neg h1, if_pos h2]
    refine ⟨?_, ?_, ?_, ?_, rfl, rfl⟩
    · show g.ball.velocity.x * (-1 * g.hit_speedup) = -(g.hit_speedup * g.ball.velocity.x)
      ring
    · rfl
    · show g.ball.box.origin.x + (g.pad2.left - g.ball.right) + g.ball.box.width = g.pad2.left
      show g.ball.box.origin.x + (g.pad2.left - (g.ball.box.origin.x + g.ball.box.width)) +
        g.ball.box.width = g.pad2.left
      ring
    · show g.ball.box.origin.y + 0 = g.ball.box.origin.y
      ring
  · intro h1 h2
    unfold PongGame.collide
    rw [if_neg h1, if_neg h2]

/-- A concrete state whose ball overlaps both paddles at once: 600×400
screen, paddles in their start columns, and a 560-wide ball spanning the
whole field. -/
def pongWitnessBoth : PongState :=
  { screen_width := 600, screen_height := 400, spin := 0.2, hit_speedup := 1.05,
    ball_max_speed := 10,
    ball := { box := ⟨⟨20, 150⟩, 560, 100⟩, velocity := ⟨3, 0⟩, max_speed := 10 },
    pad1 := { box := ⟨⟨25, 180⟩, 10, 40⟩, velocity := ⟨0, 0⟩, speed := 8 },
    pad2 := { box := ⟨⟨565, 180⟩, 10, 40⟩, velocity := ⟨0, 0⟩, speed := 8 },
    p1_score := 0, p2_score := 0, paused := false,
    ai1 := some (.agent .MEDIUM), ai2 := some (.agent .MEDIUM) }

/-- Witness for `collide_left_paddle_first`: a wide ball overlapping BOTH
paddles at once; only the left-paddle resolution is applied (the ball ends
flush against the left paddle's right edge and the right paddle's branch
leaves no trace). -/
theorem collide_left_paddle_first_witness :
    (pongWitnessBoth.ball.intersectsPad pongWitnessBoth.pad1 ∧
     pongWitnessBoth.ball.intersectsPad pongWitnessBoth.pad2) ∧
    (PongGame.collide pongWitnessBoth).ball.left = pongWitnessBoth.pad1.right ∧
    (PongGame.collide pongWitnessBoth).ball.velocity.x =
      -(pongWitnessBoth.hit_speedup * pongWitnessBoth.ball.velocity.x) ∧
    (PongGame.collide pongWitnessBoth).pad2 = pongWitnessBoth.pad2 := by
  have h1 : pongWitnessBoth.ball.intersectsPad pongWitnessBoth.pad1 := by
    norm_num [pongWitnessBoth, Ball.intersectsPad, BoundingBox.intersects,
      BoundingBox.right, BoundingBox.left, BoundingBox.top, BoundingBox.bottom]
  have h2 : pongWitnessBoth.ball.intersectsPad pongWitnessBoth.pad2 := by
    norm_num [pongWitnessBoth, Ball.intersectsPad, BoundingBox.intersects,
      BoundingBox.right, BoundingBox.left, BoundingBox.top, BoundingBox.bottom]
  obtain ⟨hleft, _, _⟩ := collide_left_paddle_first pongWitnessBoth
  obtain ⟨hvx, _, hl, _, _, hp2⟩ := hleft h1
  exact ⟨⟨h1, h2⟩, hl, hvx, hp2⟩

/-- C6: the scoring part of `PongGame.physics`.  `ball.left < 0` gives
player two exactly one point (player one unchanged) and runs `reset()`
(fresh centred ball, both paddles back at their start positions, game
paused); `ball.right > screen_width` is symmetric for player one; in every
other case the state is returned untouched. -/
theorem score_check_cases (g : PongState) (rx ry : Bool) :
    (g.ball.left < 0 →
      (PongGame.score_check g rx ry).p2_score = g.p2_score + 1 ∧
      (PongGame.score_check g rx ry).p1_score = g.p1_score ∧
      (PongGame.score_check g rx ry).paused = true ∧
      (PongGame.score_check g rx ry).ball.box.origin =
        Point.mk (g.screen_width / 2 - Ball.BALL_SIZE / 2)
          (g.screen_height / 2 - Ball.BALL_SIZE / 2) ∧
      (PongGame.score_check g rx ry).pad1 =
        Paddle.make_paddle g.screen_width g.screen_height 1 Paddle.DEFAULT_SPEED ∧
      (PongGame.score_check g rx ry).pad2 =
        Paddle.make_paddle g.screen_width g.screen_height 2 Paddle.DEFAULT_SPEED) ∧
    (¬ g.ball.left < 0 → g.ball.right > g.screen_width →
      (PongGame.score_check g rx ry).p1_score = g.p1_score + 1 ∧
      (PongGame.score_check g rx ry).p2_score = g.p2_score ∧
      (PongGame.score_check g rx ry).paused = true ∧
      (PongGame.score_check g rx ry).ball.box.origin =
        Point.mk (g.screen_width / 2 - Ball.BALL_SIZE / 2)
          (g.screen_height / 2 - Ball.BALL_SIZE / 2) ∧
      (PongGame.score_check g rx ry).pad1 =
        Paddle.make_paddle g.screen_width g.screen_height 1 Paddle.DEFAULT_SPEED ∧
      (PongGame.score_check g rx ry).pad2 =
        Paddle.make_paddle g.screen_width g.screen_height 2 Paddle.DEFAULT_SPEED) ∧
    (¬ g.ball.left < 0 → ¬ g.ball.right > g.screen_width →
      PongGame.score_check g rx ry = g) := by
  refine ⟨?_, ?_, ?_⟩
  · intro h
    have hob : g.ball.is_out_of_bounds g.screen_width g.screen_height := Or.inl h
    unfold PongGame.score_check
    rw [if_pos hob, if_pos h]
    exact ⟨rfl, rfl, rfl, rfl, rfl, rfl⟩
  · intro h1 h2
    have hob : g.ball.is_out_of_bounds g.screen_width g.screen_height := Or.inr (Or.inl h2)
    unfold PongGame.score_check
    rw [if_pos hob, if_neg h1, if_pos h2]
    exact ⟨rfl, rfl, rfl, rfl, rfl, rfl⟩
  · intro h1 h2
    unfold PongGame.score_check
    split_ifs <;> first | rfl | (exact absurd (by assumption) h1) | (exact absurd (by assumption) h2)

/-- A concrete state whose ball has crossed the left edge (`left = -5`). -/
def pongWitnessLeftOut : PongState :=
  { screen_width := 800, screen_height := 400, spin := 0.2, hit_speedup := 1.05,
    ball_max_speed := 10,
    ball := { box := ⟨⟨-5, 100⟩, 12, 12⟩, velocity := ⟨-3, 0⟩, max_speed := 10 },
    pad1 := { box := ⟨⟨25, 180⟩, 10, 40⟩, velocity := ⟨0, 0⟩, speed := 8 },
    pad2 := { box := ⟨⟨765, 180⟩, 10, 40⟩, velocity := ⟨0, 0⟩, speed := 8 },
    p1_score := 2, p2_score := 5, paused := false,
    ai1 := some (.agent .MEDIUM), ai2 := some (.agent .MEDIUM) }

/-- Witness for `score_check_cases`: a ball that left the screen on the
left (`left = -5`) scores for player two and resets. -/
theorem score_check_cases_witness :
    pongWitnessLeftOut.ball.left < 0 ∧
    (PongGame.score_check pongWitnessLeftOut true false).p2_score =
      pongWitnessLeftOut.p2_score + 1 ∧
    (PongGame.score_check pongWitnessLeftOut true false).p1_score =
      pongWitnessLeftOut.p1_score ∧
    (PongGame.score_check pongWitnessLeftOut true false).paused = true := by
  have h : pongWitnessLeftOut.ball.left < 0 := by
    show (-5 : ℝ) < 0
    norm_num
  obtain ⟨hcase, _, _⟩ := score_check_cases pongWitnessLeftOut true false
  obtain ⟨hp2, hp1, hps, _⟩ := hcase h
  exact ⟨h, hp2, hp1, hps⟩

/-- Reduction of an `Except` bind on a success value, used to evaluate the
do-notation of `RuleBased.get_action` on full snapshots. -/
theorem except_ok_bind {ε α β : Type} (x : α) (f : α → Except ε β) :
    (Except.ok x >>= f : Except ε β) = f x := rfl

/-- The dead-zone table exactly as the claim words it: screen_width times
0.8 / 0.5 / 0.2 / 0 for EASY / MEDIUM / HARD / IMPOSSIBLE.  This definition
follows the spec text and is compared against the source's
`RuleBased.dead_zone_size`. -/
def spec_dead_zone (screen_width : ℝ) : Difficulty → ℝ
  | .EASY => screen_width * 0.8
  | .MEDIUM => screen_width * 0.5
  | .HARD => screen_width * 0.2
  | .IMPOSSIBLE => 0

/-- The rule-based decision exactly as the claim words it: if the ball is
outside the dead zone or is not approaching the paddle's side, track the
resting target `screen_height/2 - paddle.height/2` (dy = 0 when the
paddle's vertical span strictly straddles it); otherwise track the ball's
centre (dy = 0 when strictly straddled); answer move-up iff dy < 0,
move-down iff dy > 0, stop iff dy = 0.  This definition follows the spec
text and is compared against the source's `RuleBased.get_action`. -/
def spec_rule_action (W H dead_zone : ℝ) (ball : Ball) (paddle : Paddle) : PaddleAction :=
  let dy :=
    if |ball.centre.x - paddle.centre.x| > dead_zone ∨
        ¬ ((paddle.centre.x > W / 2 ∧ ball.velocity.x > 0) ∨
           (paddle.centre.x < W / 2 ∧ ball.velocity.x < 0)) then
      let target := H / 2 - paddle.height / 2
      if paddle.top < target ∧ target < paddle.bottom then 0 else target - paddle.centre.y
    else
      if paddle.top < ball.centre.y ∧ ball.centre.y < paddle.bottom then 0
      else ball.centre.y - paddle.centre.y
  if dy < 0 then .move_up else if dy > 0 then .move_down else .stop

/-- C7: on a snapshot carrying all three keys, the source's rule-based
policy succeeds and returns exactly the action described by the claim
(`spec_rule_action`), with the dead zone given by the claim's difficulty
table (`spec_dead_zone`); the result is always one of move-up, move-down,
stop. -/
theorem rule_based_get_action_matches_spec (d : Difficulty) (W H : ℝ)
    (ball : Ball) (paddle : Paddle) :
    RuleBased.dead_zone_size W d = spec_dead_zone W d ∧
    RuleBased.get_action (RuleBased.dead_zone_size W d)
        { canvas := some ⟨W, H⟩, paddle := some paddle, ball := some ball } =
      .ok (spec_rule_action W H (spec_dead_zone W d) ball paddle) ∧
    (spec_rule_action W H (spec_dead_zone W d) ball paddle = .move_up ∨
     spec_rule_action W H (spec_dead_zone W d) ball paddle = .move_down ∨
     spec_rule_action W H (spec_dead_zone W d) ball paddle = .stop) := by
  have hdz : RuleBased.dead_zone_size W d = spec_dead_zone W d := by
    cases d <;> rfl
  refine ⟨hdz, ?_, ?_⟩
  · rw [hdz]
    unfold RuleBased.get_action spec_rule_action Snapshot.getCanvas Snapshot.getPaddle
      Snapshot.getBall RuleBased.is_ball_approaching
    dsimp only
    simp only [except_ok_bind]
    split_ifs <;> rfl
  · unfold spec_rule_action
    dsimp only
    split_ifs <;> simp

/-- C8 (amended): `PongGame.__init__` performs no dimension validation at
all; it clamps the requested window size with `max(600, window_width)` and
`max(300, window_height)`, so every construction — including one with
non-positive dimensions — yields a game whose screen is at least 600×300. -/
theorem init_dims_clamped (spin hs ms w h : ℝ) (t1 t2 : Option ℤ)
    (d : Difficulty) (rx ry : Bool) :
    (PongGame.init spin hs ms w h t1 t2 d rx ry).screen_width = max 600 w ∧
    (PongGame.init spin hs ms w h t1 t2 d rx ry).screen_height = max 300 h ∧
    600 ≤ (PongGame.init spin hs ms w h t1 t2 d rx ry).screen_width ∧
    300 ≤ (PongGame.init spin hs ms w h t1 t2 d rx ry).screen_height := by
  refine ⟨rfl, rfl, ?_, ?_⟩
  · show (600 : ℝ) ≤ max 600 w
    exact le_max_left _ _
  · show (300 : ℝ) ≤ max 300 h
    exact le_max_left _ _

/-- C8 counterexample: constructing the game with `window_width = 0` and
`window_height = -100` is not rejected — it produces an ordinary (paused)
game state with the clamped 600×300 screen. -/
theorem init_accepts_nonpositive_dims :
    (PongGame.init 0.2 1.05 10 0 (-100) none none .MEDIUM false false).screen_width = 600 ∧
    (PongGame.init 0.2 1.05 10 0 (-100) none none .MEDIUM false false).screen_height = 300 ∧
    (PongGame.init 0.2 1.05 10 0 (-100) none none .MEDIUM false false).paused = true := by
  refine ⟨?_, ?_, rfl⟩
  · show max (600 : ℝ) 0 = 600
    exact max_eq_left (by norm_num)
  · show max (300 : ℝ) (-100) = 300
    exact max_eq_left (by norm_num)

/-- Neither `AIAgent` nor `RuleBased` defines a method named `get_move`. -/
theorem AIObj.lookupMethod_get_move (a : AIObj) : a.lookupMethod .get_move = none := by
  cases a <;> rfl

/-- Any game whose first `ai_players` entry is an object (which
`PongGame.__init__` always guarantees) fails its update with
`AttributeError: get_move`. -/
theorem update_error_of_ai1 (g : PongState) (a : AIObj) (hg : g.ai1 = some a)
    (rx ry : Bool) :
    PongGame.update g rx ry = .error (.attributeError .get_move) := by
  unfold PongGame.update PongGame.aiStepSide AIObj.callMethod
  rw [hg]
  dsimp only
  rw [AIObj.lookupMethod_get_move]
  rfl

/-- C1: on every game built by the constructor — whatever the two `ai_type`
arguments, including None — the very first statement of `PongGame.update`
calls `get_move` on the agent object (the factory returns a base `AIAgent`,
not None, even for ai_type None), a method neither AI class defines, so the
update raises AttributeError before any policy is evaluated or any paddle
velocity is touched. -/
theorem update_raises_attribute_error (spin hs ms w h : ℝ) (t1 t2 : Option ℤ)
    (d : Difficulty) (rx ry rx2 ry2 : Bool) :
    PongGame.update (PongGame.init spin hs ms w h t1 t2 d rx ry) rx2 ry2 =
      .error (.attributeError .get_move) :=
  update_error_of_ai1 _ (AIFactory.make_ai (max 600 w) t1 d) rfl rx2 ry2

/-- A concrete state one tick before a left-paddle hit at full speed:
800×400 screen, standard paddles, ball at (10, 180) with velocity (10, 0)
— magnitude exactly `max_speed = 10`. -/
def pongOverspeedState : PongState :=
  { screen_width := 800, screen_height := 400, spin := 0.2, hit_speedup := 1.05,
    ball_max_speed := 10,
    ball := { box := ⟨⟨10, 180⟩, 12, 12⟩, velocity := ⟨10, 0⟩, max_speed := 10 },
    pad1 := { box := ⟨⟨25, 180⟩, 10, 40⟩, velocity := ⟨0, 0⟩, speed := 8 },
    pad2 := { box := ⟨⟨765, 180⟩, 10, 40⟩, velocity := ⟨0, 0⟩, speed := 8 },
    p1_score := 0, p2_score := 0, paused := false,
    ai1 := some (.agent .MEDIUM), ai2 := some (.agent .MEDIUM) }

/-- C10: the speed clamp lives only in `Ball.update`, which
`PongGame.update` runs before `physics`; from `pongOverspeedState` (whose
ball satisfies the clamp invariant exactly) the movement/physics part of
the tick ends with the ball's speed `10.5 > max_speed` — the hit-speedup of
the paddle collision is applied after the clamp and persists.  On the
actual code `PongGame.update` never even returns: it raises
`AttributeError: get_move` in the AI step before any of this. -/
theorem tick_leaves_overspeed_after_hit :
    pongOverspeedState.ball.velocity.magnitude ≤ pongOverspeedState.ball.max_speed ∧
    PongGame.update pongOverspeedState false false = .error (.attributeError .get_move) ∧
    (PongGame.tickRest pongOverspeedState false false).ball.velocity.magnitude >
      (PongGame.tickRest pongOverspeedState false false).ball.max_speed := by
  refine ⟨?_, ?_, ?_⟩
  · exact Point.magnitude_le (c := 10) (by norm_num) (by norm_num [pongOverspeedState])
  · exact update_error_of_ai1 pongOverspeedState (.agent .MEDIUM) rfl false false
  · have hnogt : ¬ (Point.magnitude ⟨10, 0⟩ > (10 : ℝ)) := by
      rw [Point.magnitude_eq (p := ⟨10, 0⟩) (c := 10) (by norm_num) (by norm_num)]
      norm_num
    have hred : (PongGame.tickRest pongOverspeedState false false).ball.velocity =
        Point.mk (10 * (-1 * 1.05)) (0 + 0.2 * 0) ∧
        (PongGame.tickRest pongOverspeedState false false).ball.max_speed = 10 := by
      norm_num [PongGame.tickRest, PongGame.physics, PongGame.collide, PongGame.score_check,
        pongOverspeedState, Paddle.update, Paddle.move, Ball.update, Ball.integrate,
        Ball.wallBounce, Ball.clampSpeed, Ball.move, Ball.intersectsPad,
        BoundingBox.intersects, Ball.is_out_of_bounds, Ball.left, Ball.right, Ball.top,
        Ball.bottom, Paddle.left, Paddle.right, Paddle.top, Paddle.bottom,
        BoundingBox.left, BoundingBox.right, BoundingBox.top, BoundingBox.bottom,
        BoundingBox.translate, Point.add, hnogt]
    rw [hred.1, hred.2]
    rw [Point.magnitude_eq (c := 10.5) (by norm_num) (by norm_num)]
    norm_num

/-- C9: `Ball.get_centred_ball` ignores its `max_speed` argument — every
ball it returns carries `Ball.DEFAULT_MAX_SPEED = 10` — and therefore the
ball built by `PongGame.reset` has `max_speed = 10` no matter what
`ball_max_speed` the game was configured with. -/
theorem get_centred_ball_ignores_max_speed (W H speed ms : ℝ) (rx ry : Bool)
    (g : PongState) (rx2 ry2 : Bool) :
    Ball.DEFAULT_MAX_SPEED = 10 ∧
    (Ball.get_centred_ball W H rx ry speed ms).max_speed = 10 ∧
    (PongGame.reset g rx2 ry2).ball.max_speed = 10 :=
  ⟨rfl, rfl, rfl⟩

end PyPong
